import Mathlib

/-!
Shallow embedding of the repository's three source files:

* `packages/greedy_infomax/.../utils/loss_utils.py` — the Greedy InfoMax
  loss-function family, modelled over real-valued tensors;
* `projects/whydense/mnist/mnist_sparse_experiment.py` — the experiment
  driver's optimizer/scheduler construction, CNN shape computation and
  noise-test loop;
* `nupic/research/frameworks/pytorch/imagenet/mixins/profile_autograd.py` —
  the autograd profiling mixin, modelled as a state transformer.

Tensors of shape (b, c, y, x) are modelled as their sizes together with a
total entry function; entries read outside the declared bounds are junk and
are never relied upon by any theorem.
-/

/-- Reduction mode accepted by the torch loss primitives, as used here. -/
inductive Reduction
  | mean
  | sum
deriving DecidableEq

/-- A 4-dimensional tensor (batch, class, y, x) of real entries. -/
structure Tensor4 where
  b : ℕ
  c : ℕ
  y : ℕ
  x : ℕ
  data : ℕ → ℕ → ℕ → ℕ → ℝ

/-- A 3-dimensional tensor (batch, y, x) of class indices, used as targets. -/
structure Target3 where
  b : ℕ
  y : ℕ
  x : ℕ
  data : ℕ → ℕ → ℕ → ℕ

/-- Sum of a (b, y, x)-indexed family of reals. -/
noncomputable def sum3 (b y x : ℕ) (f : ℕ → ℕ → ℕ → ℝ) : ℝ :=
  ∑ i ∈ Finset.range b, ∑ j ∈ Finset.range y, ∑ k ∈ Finset.range x, f i j k

/-- Apply a reduction over the (b, y, x) positions of an elementwise loss. -/
noncomputable def reduce3 (reduction : Reduction) (b y x : ℕ)
    (f : ℕ → ℕ → ℕ → ℝ) : ℝ :=
  match reduction with
  | Reduction.sum => sum3 b y x f
  | Reduction.mean => sum3 b y x f / ((b * y * x : ℕ) : ℝ)

/-- Mean over the (b, y, x) positions, i.e. `.mean()` on a (b, y, x) tensor. -/
noncomputable def mean3 (b y x : ℕ) (f : ℕ → ℕ → ℕ → ℝ) : ℝ :=
  sum3 b y x f / ((b * y * x : ℕ) : ℝ)

/-- `F.cross_entropy(input, target, reduction)` on a 4-d input with class
dimension 1: the per-position loss is log-sum-exp over the class dimension
minus the logit of the target class, then the chosen reduction. -/
noncomputable def cross_entropy (t : Tensor4) (tgt : Target3)
    (reduction : Reduction) : ℝ :=
  reduce3 reduction t.b t.y t.x (fun i j k =>
    Real.log (∑ m ∈ Finset.range t.c, Real.exp (t.data i m j k))
      - t.data i (tgt.data i j k) j k)

/-- `torch.softmax(t, dim=1)`: normalise by the sum of exponentials over the
class dimension. -/
noncomputable def softmax1 (t : Tensor4) : Tensor4 :=
  { t with data := fun i m j k =>
      Real.exp (t.data i m j k)
        / ∑ n ∈ Finset.range t.c, Real.exp (t.data i n j k) }

/-- `torch.log(t + 1e-11)`: elementwise logarithm with the stabilising
epsilon used by the log-softmax based losses. -/
noncomputable def logAddEps (t : Tensor4) : Tensor4 :=
  { t with data := fun i m j k => Real.log (t.data i m j k + 1e-11) }

/-- `F.nll_loss(input, target, reduction)` on a 4-d input: negate the entry
of the target class at every (b, y, x) position, then reduce. -/
noncomputable def nll_loss (t : Tensor4) (tgt : Target3)
    (reduction : Reduction) : ℝ :=
  reduce3 reduction t.b t.y t.x (fun i j k =>
    -(t.data i (tgt.data i j k) j k))

/-- `torch.zeros((b, y, x), dtype=torch.long)`: the all-zero target tensor
the losses build internally ("positive samples are at index 0"). -/
def zeros3 (b y x : ℕ) : Target3 :=
  { b := b, y := y, x := x, data := fun _ _ _ => 0 }

/-- Python list indexing `l[i]` with negative indices counting from the end;
out-of-range indices (an IndexError in Python) give `none`. -/
def pyIndex {γ : Type} (l : List γ) (i : ℤ) : Option γ :=
  if 0 ≤ i then l.get? i.toNat
  else if (-i).toNat ≤ l.length then l.get? (l.length - (-i).toNat)
  else none

/-- `multiple_cross_entropy(log_f_module_list, targets, reduction)`:
accumulates `F.cross_entropy(log_fk, zeros, reduction)` over every module
and every prediction horizon into one scalar; the `targets` argument is
never read. -/
noncomputable def multiple_cross_entropy {τ : Type}
    (log_f_module_list : List (List Tensor4)) (targets : τ)
    (reduction : Reduction) : ℝ :=
  log_f_module_list.foldl (fun total_loss log_f_list =>
    log_f_list.foldl (fun total_loss log_fk =>
      total_loss
        + cross_entropy log_fk (zeros3 log_fk.b log_fk.y log_fk.x) reduction)
      total_loss)
    0

/-- `all_module_multiple_log_softmax(log_f_module_list, targets, reduction)`:
for each module, accumulates `F.nll_loss(log(softmax + 1e-11), zeros,
reduction)` over its horizons, divides by the number of horizons, and
appends the result to a per-module loss vector. -/
noncomputable def all_module_multiple_log_softmax {τ : Type}
    (log_f_module_list : List (List Tensor4)) (targets : τ)
    (reduction : Reduction) : List ℝ :=
  log_f_module_list.foldl (fun module_losses log_f_list =>
    module_losses
      ++ [(log_f_list.foldl (fun module_loss log_fk =>
            module_loss
              + nll_loss (logAddEps (softmax1 log_fk))
                  (zeros3 log_fk.b log_fk.y log_fk.x) reduction)
            0)
          / (log_f_list.length : ℝ)])
    []

/-- `module_specific_log_softmax_nll_loss(data_lists, targets, reduction)`:
`data_lists` packs `(log_f_module_list, true_f_module_list)`; entry `i` of
the result accumulates `F.nll_loss(log(softmax + 1e-11), true_fk,
reduction)` over the zipped horizons of module `i` and divides by the
number of horizons.  The reduction argument is forwarded to `F.nll_loss`.
The result vector starts as `torch.zeros(len(log_f_module_list))`, so
entries beyond the zipped length stay 0. -/
noncomputable def module_specific_log_softmax_nll_loss {τ : Type}
    (data_lists : List (List Tensor4) × List (List Target3)) (targets : τ)
    (reduction : Reduction) : List ℝ :=
  (List.range data_lists.1.length).map (fun i =>
    match data_lists.1.get? i, data_lists.2.get? i with
    | some log_f_list, some true_f_list =>
        ((log_f_list.zip true_f_list).foldl (fun total_i p =>
            total_i + nll_loss (logAddEps (softmax1 p.1)) p.2 reduction)
          0)
        / (log_f_list.length : ℝ)
    | _, _ => 0)

/-- `multiple_log_softmax_nll_loss(data_lists, targets, reduction)`: sums the
per-module vector.  The source calls the module-specific function without a
reduction argument, so the default mean always applies there. -/
noncomputable def multiple_log_softmax_nll_loss {τ : Type}
    (data_lists : List (List Tensor4) × List (List Target3)) (targets : τ)
    (reduction : Reduction) : ℝ :=
  (module_specific_log_softmax_nll_loss data_lists targets
    Reduction.mean).sum

/-- The loop body of `true_gim_loss` for one horizon: `numerator` is the
slice `log_fk[:, 0, :, :]`, `denominator` is the scalar mean over positions
of the log-sum-exp of the remaining class slices `log_fk[:, 1:, :, :]`, and
the contribution is `(numerator - denominator).mean()`. -/
noncomputable def gim_horizon_term (log_fk : Tensor4) : ℝ :=
  let denominator := mean3 log_fk.b log_fk.y log_fk.x (fun i j k =>
    Real.log (∑ m ∈ Finset.Ico 1 log_fk.c, Real.exp (log_fk.data i m j k)))
  mean3 log_fk.b log_fk.y log_fk.x (fun i j k =>
    log_fk.data i 0 j k - denominator)

/-- `true_gim_loss(data_lists, targets, reduction)`: accumulates the
per-horizon GIM term over the zipped modules and horizons into one scalar;
neither the target values nor the reduction argument are read. -/
noncomputable def true_gim_loss {τ : Type}
    (data_lists : List (List Tensor4) × List (List Target3)) (targets : τ)
    (reduction : Reduction) : ℝ :=
  (data_lists.1.zip data_lists.2).foldl (fun total_loss p =>
    (p.1.zip p.2).foldl (fun total_loss q =>
      total_loss + gim_horizon_term q.1)
      total_loss)
    0

/-- `module_specific_cross_entropy(data_lists, targets, reduction, module)`:
selects one module by (possibly negative) index and accumulates
`F.cross_entropy(log_fk, true_fk, reduction)` over its zipped horizons; an
out-of-range index raises IndexError in the source, modelled as junk 0. -/
noncomputable def module_specific_cross_entropy {τ : Type}
    (data_lists : List (List Tensor4) × List (List Target3)) (targets : τ)
    (reduction : Reduction) (module : ℤ) : ℝ :=
  match pyIndex data_lists.1 module, pyIndex data_lists.2 module with
  | some log_f_list, some true_f_list =>
      (log_f_list.zip true_f_list).foldl (fun total_loss q =>
        total_loss + cross_entropy q.1 q.2 reduction)
        0
  | _, _ => 0

/-! ### Experiment driver: `mnist_sparse_experiment.py` -/

/-- An optimizer instance as configured by
`MNISTSparseExperiment._createOptimizer`. -/
inductive OptimizerSpec
  | sgd (lr momentum : ℚ)
  | adam (lr : ℚ)
deriving DecidableEq

/-- A learning-rate scheduler instance as configured by
`MNISTSparseExperiment._createLearningRateScheduler`; schedulers other than
StepLR are looked up by name and fed the configured parameter string. -/
inductive SchedulerSpec
  | stepLR (step_size : ℕ) (gamma : ℚ)
  | byName (name : String) (params : String)
deriving DecidableEq

/-- `MNISTSparseExperiment._createOptimizer(name, model)`: SGD (with the
configured momentum) and Adam are the only supported names; anything else
raises LookupError. -/
def createOptimizer (name : String) (learning_rate momentum : ℚ) :
    Except String OptimizerSpec :=
  if name = ("SGD") then
    Except.ok (OptimizerSpec.sgd learning_rate momentum)
  else if name = ("Adam") then
    Except.ok (OptimizerSpec.adam learning_rate)
  else
    Except.error ("Incorrect optimizer value")

/-- `MNISTSparseExperiment._createLearningRateScheduler(name, optimizer)`:
no name means no scheduler; StepLR discards the configured
`lr_scheduler_params` and synthesizes step size 1 with gamma equal to the
configured `learning_rate_factor`; any other name requires explicit
parameters and raises ValueError when they are absent. -/
def createLearningRateScheduler (name : Option String)
    (lr_scheduler_params : Option String) (learning_rate_factor : ℚ) :
    Except String (Option SchedulerSpec) :=
  match name with
  | none => Except.ok none
  | some n =>
      if n = ("StepLR") then
        Except.ok (some (SchedulerSpec.stepLR 1 learning_rate_factor))
      else
        match lr_scheduler_params with
        | none => Except.error ("Missing lr_scheduler_params for " ++ n)
        | some p => Except.ok (some (SchedulerSpec.byName n p))

/-- The configuration keys of `MNISTSparseExperiment.__init__` that feed
optimizer and scheduler construction. -/
structure ExperimentConfig where
  optimizer : String
  learning_rate : ℚ
  momentum : ℚ
  lr_scheduler : Option String
  lr_scheduler_params : Option String
  learning_rate_factor : ℚ
deriving DecidableEq

/-- The optimizer/scheduler state a successfully constructed
`MNISTSparseExperiment` owns. -/
structure ConstructedExperiment where
  optimizer : OptimizerSpec
  lr_scheduler : Option SchedulerSpec
deriving DecidableEq

/-- Tail of `MNISTSparseExperiment.__init__`: the optimizer is created
first, then the scheduler; an exception aborts construction, so no
experiment object exists on which `train` could run a training step. -/
def initExperiment (config : ExperimentConfig) :
    Except String ConstructedExperiment :=
  match createOptimizer config.optimizer config.learning_rate
      config.momentum with
  | Except.error e => Except.error e
  | Except.ok opt =>
      match createLearningRateScheduler config.lr_scheduler
          config.lr_scheduler_params config.learning_rate_factor with
      | Except.error e => Except.error e
      | Except.ok sched =>
          Except.ok { optimizer := opt, lr_scheduler := sched }

/-- The shape update in the CNN loop of `MNISTSparseExperiment.__init__`:
`wout = (width - 5) + 1` from the kernel-5, stride-1, padding-0
convolution, then `maxpoolWidth = wout // 2` from the 2x2 max pool. -/
def cnnShapeStep (input_shape : ℕ × ℕ × ℕ) (out_channels : ℕ) :
    ℕ × ℕ × ℕ :=
  let width := input_shape.2.2
  let wout := (width - 5) + 1
  let maxpoolWidth := wout / 2
  (out_channels, maxpoolWidth, maxpoolWidth)

/-- Folding the shape update over `cnn_out_channels`, starting from
`cnn_input_shape`, exactly as the builder loop threads `input_shape`. -/
def cnnOutputShape (cnn_out_channels : List ℕ)
    (cnn_input_shape : ℕ × ℕ × ℕ) : ℕ × ℕ × ℕ :=
  cnn_out_channels.foldl cnnShapeStep cnn_input_shape

/-- `input_size = np.prod(input_shape)`: the statically known size of the
flattened CNN output fed to the first linear layer. -/
def flattenedInputSize (input_shape : ℕ × ℕ × ℕ) : ℕ :=
  input_shape.1 * input_shape.2.1 * input_shape.2.2

/-- The fixed noise magnitudes iterated by
`MNISTSparseExperiment.runNoiseTests`. -/
def noiseValues : List ℚ :=
  [0.0, 0.05, 0.1, 0.15, 0.2, 0.25, 0.3, 0.35, 0.4, 0.45, 0.5]

/-- `MNISTSparseExperiment.runNoiseTests()`: for each noise magnitude, a
fresh noise-injecting test loader is built and `self.test` is run on it;
the result mapping records each magnitude's test metrics.  The test routine
is abstracted as a function from the noise magnitude to its metrics. -/
def runNoiseTests {M : Type} (test : ℚ → M) : List (ℚ × M) :=
  noiseValues.foldl (fun ret noise => ret ++ [(noise, test noise)]) []

/-! ### Profiling mixin: `profile_autograd.py` -/

/-- The attributes of an experiment object the `ProfileAutograd` mixin
touches.  Python attributes that may not have been assigned are `Option`s;
reading an unassigned one raises AttributeError. -/
structure ProfileAutogradState where
  rank : ℕ
  profile_autograd : Option Bool
  profile : Option Bool
  epochs_trained : ℕ
  profiler_tables_logged : ℕ
deriving DecidableEq

/-- `ProfileAutograd.setup_experiment`: stores whether this process has
coordinator rank zero — but in the attribute `profile_autograd`. -/
def ProfileAutograd.setup_experiment (s : ProfileAutogradState) :
    ProfileAutogradState :=
  { s with profile_autograd := some (s.rank == 0) }

/-- `ProfileAutograd.train_epoch`: the profiler context's enabled flag reads
the attribute `profile` (not `profile_autograd`, the one the mixin sets);
if `profile` was never assigned this raises AttributeError, modelled as an
error.  Inside the context the inherited epoch runs; afterwards the table
is logged exactly when `profile` is true. -/
def ProfileAutograd.train_epoch (s : ProfileAutogradState) :
    Except String ProfileAutogradState :=
  match s.profile with
  | none => Except.error ("AttributeError: profile")
  | some enabled =>
      let s1 := { s with epochs_trained := s.epochs_trained + 1 }
      if enabled then
        Except.ok
          { s1 with profiler_tables_logged := s1.profiler_tables_logged + 1 }
      else
        Except.ok s1

/-! ### Shared helper lemmas -/

/-- A running-total fold equals the initial value plus the sum of the mapped
elements. -/
theorem foldl_add_map {α : Type} (f : α → ℝ) :
    ∀ (l : List α) (init : ℝ),
      l.foldl (fun t a => t + f a) init = init + (l.map f).sum := by
  intro l
  induction l with
  | nil => intro init; simp
  | cons a l ih =>
      intro init
      simp [List.foldl_cons, ih, add_assoc]

/-- A fold that appends one mapped element per step equals the accumulator
followed by the mapped list. -/
theorem foldl_append_map {α β : Type} (g : α → β) :
    ∀ (l : List α) (acc : List β),
      l.foldl (fun r a => r ++ [g a]) acc = acc ++ l.map g := by
  intro l
  induction l with
  | nil => intro acc; simp
  | cons a l ih =>
      intro acc
      simp [List.foldl_cons, ih]

/-- A nested running-total fold: sum over the outer list of the sums of
the mapped inner lists. -/
theorem foldl_foldl_add_map {α β : Type} (inner : β → List α) (f : α → ℝ) :
    ∀ (L : List β) (init : ℝ),
      L.foldl (fun total p =>
          (inner p).foldl (fun t q => t + f q) total) init
        = init + (L.map (fun p => ((inner p).map f).sum)).sum := by
  intro L
  induction L with
  | nil => intro init; simp
  | cons p L ih =>
      intro init
      simp [List.foldl_cons, ih, foldl_add_map, add_assoc]

/-! ### Concrete inputs used by the counterexamples -/

/-- One batch entry, two classes, one spatial position, all logits 0. -/
noncomputable def tZeros2 : Tensor4 :=
  { b := 1, c := 2, y := 1, x := 1, data := fun _ _ _ _ => 0 }

/-- One batch entry, three classes (two negative samples), one spatial
position, all logits 0. -/
noncomputable def tZeros3 : Tensor4 :=
  { b := 1, c := 3, y := 1, x := 1, data := fun _ _ _ _ => 0 }

/-- One batch entry, a single class (zero negative samples), one spatial
position, logit 5. -/
noncomputable def tSingle5 : Tensor4 :=
  { b := 1, c := 1, y := 1, x := 1, data := fun _ _ _ _ => 5 }

/-- Two batch entries, a single class, one spatial position, logits 0. -/
noncomputable def tBatch2 : Tensor4 :=
  { b := 2, c := 1, y := 1, x := 1, data := fun _ _ _ _ => 0 }

/-- One batch entry, two classes whose logits differ: 0 for class 0 and 1
for class 1. -/
noncomputable def tTwoLogits : Tensor4 :=
  { b := 1, c := 2, y := 1, x := 1,
    data := fun _ m _ _ => if m = 1 then 1 else 0 }

/-- All-zero target of shape (1, 1, 1). -/
def tgtZero111 : Target3 :=
  { b := 1, y := 1, x := 1, data := fun _ _ _ => 0 }

/-- All-zero target of shape (2, 1, 1). -/
def tgtZero211 : Target3 :=
  { b := 2, y := 1, x := 1, data := fun _ _ _ => 0 }

/-- Target of shape (1, 1, 1) selecting class 1. -/
def tgtOne111 : Target3 :=
  { b := 1, y := 1, x := 1, data := fun _ _ _ => 1 }

/-! ### Evaluation lemmas at the concrete inputs -/

/-- Cross entropy of the two-class all-zero tensor with the internal zero
target: log-sum-exp of two zero logits is log 2. -/
theorem eval_cross_entropy_tZeros2 :
    cross_entropy tZeros2 (zeros3 1 1 1) Reduction.mean = Real.log 2 := by
  simp [cross_entropy, reduce3, sum3, tZeros2, zeros3, Finset.sum_range_succ,
    Real.exp_zero]

/-- One module with two identical horizons: the accumulated scalar is twice
the per-horizon cross entropy. -/
theorem eval_multiple_ce_two_horizons :
    multiple_cross_entropy [[tZeros2, tZeros2]] () Reduction.mean
      = Real.log 2 + Real.log 2 := by
  simp [multiple_cross_entropy, cross_entropy, reduce3, sum3, tZeros2, zeros3,
    Finset.sum_range_succ, Real.exp_zero]

/-- Module-specific log-softmax NLL at the two-batch input with reduction
sum: both batch entries contribute. -/
theorem eval_ms_tBatch2_sum :
    module_specific_log_softmax_nll_loss ([[tBatch2]], [[tgtZero211]]) ()
        Reduction.sum
      = [-(2 * Real.log (1 + 1e-11))] := by
  simp [module_specific_log_softmax_nll_loss, nll_loss, logAddEps, softmax1,
    reduce3, sum3, tBatch2, tgtZero211, List.range_succ,
    Finset.sum_range_succ, Real.exp_zero]

/-- Module-specific log-softmax NLL at the two-batch input with reduction
mean: the two contributions are averaged. -/
theorem eval_ms_tBatch2_mean :
    module_specific_log_softmax_nll_loss ([[tBatch2]], [[tgtZero211]]) ()
        Reduction.mean
      = [-Real.log (1 + 1e-11)] := by
  simp [module_specific_log_softmax_nll_loss, nll_loss, logAddEps, softmax1,
    reduce3, sum3, tBatch2, tgtZero211, List.range_succ,
    Finset.sum_range_succ, Real.exp_zero]
  ring

/-- The scalar variant at the two-batch input: it always evaluates the
module-specific vector with the default mean, whatever reduction is
passed. -/
theorem eval_ml_tBatch2_sum :
    multiple_log_softmax_nll_loss ([[tBatch2]], [[tgtZero211]]) ()
        Reduction.sum
      = -Real.log (1 + 1e-11) := by
  simp [multiple_log_softmax_nll_loss, module_specific_log_softmax_nll_loss,
    nll_loss, logAddEps, softmax1, reduce3, sum3, tBatch2, tgtZero211,
    List.range_succ, Finset.sum_range_succ, Real.exp_zero]
  ring

/-- The log-softmax loss vector for a single module, single horizon, single
class: the softmax collapses to 1 and only the epsilon survives. -/
theorem eval_all_module_tSingle5 :
    all_module_multiple_log_softmax [[tSingle5]] () Reduction.mean
      = [-Real.log (1 + 1e-11)] := by
  simp [all_module_multiple_log_softmax, nll_loss, logAddEps, softmax1,
    reduce3, sum3, tSingle5, zeros3, Finset.sum_range_succ, Real.exp_zero,
    div_self (Real.exp_ne_zero 5)]

/-- The GIM loss for a single module, single horizon, single class: the
log-sum-exp over the empty negative-sample slice contributes `log 0` (which
the real-valued model evaluates to the junk value 0; torch produces `-inf`
there, so the two values disagree under either reading). -/
theorem eval_gim_tSingle5 :
    true_gim_loss ([[tSingle5]], [[tgtZero111]]) () Reduction.mean = 5 := by
  simp [true_gim_loss, gim_horizon_term, mean3, sum3, tSingle5, tgtZero111,
    Finset.sum_range_succ, Real.log_zero]

/-- The log-softmax loss vector at three all-zero logits: softmax gives 1/3
to the positive class. -/
theorem eval_all_module_tZeros3 :
    all_module_multiple_log_softmax [[tZeros3]] () Reduction.mean
      = [-Real.log (1 / 3 + 1e-11)] := by
  simp [all_module_multiple_log_softmax, nll_loss, logAddEps, softmax1,
    reduce3, sum3, tZeros3, zeros3, Finset.sum_range_succ, Real.exp_zero]

/-- The GIM loss at three all-zero logits: log-sum-exp over the two
negative samples gives log 2, and the positive logit is 0. -/
theorem eval_gim_tZeros3 :
    true_gim_loss ([[tZeros3]], [[tgtZero111]]) () Reduction.mean
      = -Real.log 2 := by
  simp [true_gim_loss, gim_horizon_term, mean3, sum3, tZeros3, tgtZero111,
    Finset.sum_Ico_eq_sum_range, Finset.sum_range_succ, Real.exp_zero]

/-- Module-specific cross entropy reads the caller-supplied target class 1
of `tgtOne111`. -/
theorem eval_msce_target_one :
    module_specific_cross_entropy ([[tTwoLogits]], [[tgtOne111]]) ()
        Reduction.mean (-1)
      = Real.log (1 + Real.exp 1) - 1 := by
  simp [module_specific_cross_entropy, pyIndex, cross_entropy, reduce3, sum3,
    tTwoLogits, tgtOne111, Finset.sum_range_succ, Real.exp_zero]

/-- Module-specific cross entropy with the all-zero target reads class 0
instead. -/
theorem eval_msce_target_zero :
    module_specific_cross_entropy ([[tTwoLogits]], [[tgtZero111]]) ()
        Reduction.mean (-1)
      = Real.log (1 + Real.exp 1) := by
  simp [module_specific_cross_entropy, pyIndex, cross_entropy, reduce3, sum3,
    tTwoLogits, tgtZero111, Finset.sum_range_succ, Real.exp_zero]

/-- Module-specific log-softmax NLL with the caller-supplied target class
1: it is the class-1 softmax entry that is penalised. -/
theorem eval_msls_target_one :
    module_specific_log_softmax_nll_loss ([[tTwoLogits]], [[tgtOne111]]) ()
        Reduction.mean
      = [-Real.log (Real.exp 1 / (1 + Real.exp 1) + 1e-11)] := by
  simp [module_specific_log_softmax_nll_loss, nll_loss, logAddEps, softmax1,
    reduce3, sum3, tTwoLogits, tgtOne111, List.range_succ,
    Finset.sum_range_succ, Real.exp_zero]

/-- Module-specific log-softmax NLL with the all-zero target: the class-0
softmax entry is penalised. -/
theorem eval_msls_target_zero :
    module_specific_log_softmax_nll_loss ([[tTwoLogits]], [[tgtZero111]]) ()
        Reduction.mean
      = [-Real.log (1 / (1 + Real.exp 1) + 1e-11)] := by
  simp [module_specific_log_softmax_nll_loss, nll_loss, logAddEps, softmax1,
    reduce3, sum3, tTwoLogits, tgtZero111, List.range_succ,
    Finset.sum_range_succ, Real.exp_zero]

/-! ### Claim theorems -/

/-- C1, counterexample: the claim says every loss function's inner loop
divides the module's accumulated loss by the number of prediction
horizons.  `multiple_cross_entropy` does not: on one module with two equal
horizons its output is the sum of the two per-horizon cross entropies, and
that sum differs from the horizon average the claim prescribes. -/
theorem multiple_cross_entropy_sums_horizons_counterexample :
    multiple_cross_entropy [[tZeros2, tZeros2]] () Reduction.mean
      = cross_entropy tZeros2 (zeros3 1 1 1) Reduction.mean
        + cross_entropy tZeros2 (zeros3 1 1 1) Reduction.mean
    ∧ multiple_cross_entropy [[tZeros2, tZeros2]] () Reduction.mean
      ≠ (cross_entropy tZeros2 (zeros3 1 1 1) Reduction.mean
          + cross_entropy tZeros2 (zeros3 1 1 1) Reduction.mean) / 2 := by
  rw [eval_multiple_ce_two_horizons, eval_cross_entropy_tZeros2]
  refine ⟨rfl, ?_⟩
  have h : 0 < Real.log 2 := Real.log_pos (by norm_num)
  intro hc
  nlinarith

/-- C1, amended: `all_module_multiple_log_softmax` and
`module_specific_log_softmax_nll_loss` divide each module's accumulated
loss by its number of prediction horizons; `multiple_cross_entropy` and
`true_gim_loss` accumulate across horizons without dividing; aggregation
across the outer module list is a sum into one scalar for
`multiple_cross_entropy` and `true_gim_loss` and a stack into a per-module
vector for the other two. -/
theorem loss_family_horizon_division_and_module_aggregation
    (L : List (List Tensor4)) (T : List (List Target3)) (red : Reduction) :
    multiple_cross_entropy L () red
        = (L.map (fun lst =>
            (lst.map (fun t =>
              cross_entropy t (zeros3 t.b t.y t.x) red)).sum)).sum
    ∧ all_module_multiple_log_softmax L () red
        = L.map (fun lst =>
            ((lst.map (fun t =>
                nll_loss (logAddEps (softmax1 t)) (zeros3 t.b t.y t.x)
                  red)).sum)
              / (lst.length : ℝ))
    ∧ true_gim_loss (L, T) () red
        = ((L.zip T).map (fun p =>
            ((p.1.zip p.2).map (fun q => gim_horizon_term q.1)).sum)).sum
    ∧ module_specific_log_softmax_nll_loss (L, T) () red
        = (List.range L.length).map (fun i =>
            match L.get? i, T.get? i with
            | some lf, some tf =>
                ((lf.zip tf).map (fun q =>
                    nll_loss (logAddEps (softmax1 q.1)) q.2 red)).sum
                  / (lf.length : ℝ)
            | _, _ => 0) := by
  refine ⟨?_, ?_, ?_, ?_⟩
  · simpa using foldl_foldl_add_map (fun lst => lst)
      (fun t => cross_entropy t (zeros3 t.b t.y t.x) red) L 0
  · simp only [all_module_multiple_log_softmax, foldl_append_map,
      foldl_add_map, zero_add, List.nil_append]
  · simpa using foldl_foldl_add_map
      (fun p : List Tensor4 × List Target3 => p.1.zip p.2)
      (fun q : Tensor4 × Target3 => gim_horizon_term q.1) (L.zip T) 0
  · simp only [module_specific_log_softmax_nll_loss, foldl_add_map, zero_add]

/-- C2, counterexample: with the same inputs and the same reduction
argument `sum`, the sum of the per-module vector of
`module_specific_log_softmax_nll_loss` differs from the scalar of
`multiple_log_softmax_nll_loss`, because the latter never forwards its
reduction argument to the module-specific computation. -/
theorem module_specific_sum_vs_multiple_counterexample :
    (module_specific_log_softmax_nll_loss ([[tBatch2]], [[tgtZero211]]) ()
        Reduction.sum).sum
      ≠ multiple_log_softmax_nll_loss ([[tBatch2]], [[tgtZero211]]) ()
          Reduction.sum := by
  rw [eval_ms_tBatch2_sum, eval_ml_tBatch2_sum]
  have h : 0 < Real.log (1 + 1e-11) := Real.log_pos (by norm_num)
  simp only [List.sum_cons, List.sum_nil, add_zero]
  intro hc
  nlinarith

/-- C2, amended: the scalar of `multiple_log_softmax_nll_loss` equals the
sum of the per-module vector of `module_specific_log_softmax_nll_loss`
evaluated with the default mean reduction; the scalar variant's own
reduction argument plays no role. -/
theorem multiple_log_softmax_nll_loss_eq_sum_of_module_specific_mean
    (data_lists : List (List Tensor4) × List (List Target3))
    (red : Reduction) :
    multiple_log_softmax_nll_loss data_lists () red
      = (module_specific_log_softmax_nll_loss data_lists ()
          Reduction.mean).sum := rfl

/-- C3, counterexample: the claim says the two losses agree in the
degenerate case of zero negative samples.  With a single module, single
horizon and a single class they disagree: the softmax variant yields
`-log(1 + 1e-11)` while the GIM loss yields the raw positive logit (torch
would even produce an infinite value from the empty log-sum-exp slice). -/
theorem gim_zero_negative_agreement_counterexample :
    all_module_multiple_log_softmax [[tSingle5]] () Reduction.mean
      ≠ [true_gim_loss ([[tSingle5]], [[tgtZero111]]) () Reduction.mean] := by
  rw [eval_all_module_tSingle5, eval_gim_tSingle5]
  have h : 0 < Real.log (1 + 1e-11) := Real.log_pos (by norm_num)
  simp only [ne_eq, List.cons.injEq, and_true]
  intro hc
  linarith

/-- C3, amended: for a single module with a single prediction horizon,
`true_gim_loss` and `all_module_multiple_log_softmax` produce different
values with more than one negative sample (witnessed at two negative
samples, where the normalizations differ), and they also differ in the
degenerate case of zero negative samples rather than agreeing there. -/
theorem gim_vs_log_softmax_divergence :
    all_module_multiple_log_softmax [[tZeros3]] () Reduction.mean
        ≠ [true_gim_loss ([[tZeros3]], [[tgtZero111]]) () Reduction.mean]
    ∧ all_module_multiple_log_softmax [[tSingle5]] () Reduction.mean
        ≠ [true_gim_loss ([[tSingle5]], [[tgtZero111]]) ()
            Reduction.mean] := by
  constructor
  · rw [eval_all_module_tZeros3, eval_gim_tZeros3]
    have h : Real.log (1 / 3 + 1e-11) < Real.log 2 :=
      Real.log_lt_log (by norm_num) (by norm_num)
    simp only [ne_eq, List.cons.injEq, and_true]
    intro hc
    linarith
  · rw [eval_all_module_tSingle5, eval_gim_tSingle5]
    have h : 0 < Real.log (1 + 1e-11) := Real.log_pos (by norm_num)
    simp only [ne_eq, List.cons.injEq, and_true]
    intro hc
    linarith

/-- C4, counterexample: the claim says every loss function builds its
targets internally as all-zero tensors and ignores caller-supplied
per-module targets.  `module_specific_cross_entropy` reads the supplied
target tensors: changing the supplied target class from 1 to 0 changes its
output. -/
theorem module_specific_cross_entropy_uses_supplied_targets :
    module_specific_cross_entropy ([[tTwoLogits]], [[tgtOne111]]) ()
        Reduction.mean (-1)
      ≠ module_specific_cross_entropy ([[tTwoLogits]], [[tgtZero111]]) ()
          Reduction.mean (-1) := by
  rw [eval_msce_target_one, eval_msce_target_zero]
  intro hc
  linarith

/-- C4, amended: `multiple_cross_entropy` and
`all_module_multiple_log_softmax` construct their targets internally as
all-zero tensors (positive sample at class index 0), but
`module_specific_log_softmax_nll_loss` and `module_specific_cross_entropy`
consume the caller-supplied per-module target tensors packed in
`data_lists`; for the latter two, changing the supplied targets changes
the output. -/
theorem internal_zero_targets_vs_supplied_targets :
    (∀ (t : Tensor4) (red : Reduction),
        multiple_cross_entropy [[t]] () red
          = cross_entropy t (zeros3 t.b t.y t.x) red)
    ∧ (∀ (t : Tensor4) (red : Reduction),
        all_module_multiple_log_softmax [[t]] () red
          = [nll_loss (logAddEps (softmax1 t)) (zeros3 t.b t.y t.x) red])
    ∧ module_specific_log_softmax_nll_loss ([[tTwoLogits]], [[tgtOne111]])
          () Reduction.mean
        ≠ module_specific_log_softmax_nll_loss ([[tTwoLogits]],
            [[tgtZero111]]) () Reduction.mean := by
  refine ⟨?_, ?_, ?_⟩
  · intro t red
    simp [multiple_cross_entropy]
  · intro t red
    simp [all_module_multiple_log_softmax]
  · rw [eval_msls_target_one, eval_msls_target_zero]
    have he : (1:ℝ) < Real.exp 1 := Real.one_lt_exp_iff.2 zero_lt_one
    have hpos : (0:ℝ) < 1 + Real.exp 1 := by positivity
    have hlt : (1:ℝ) / (1 + Real.exp 1) + 1e-11
        < Real.exp 1 / (1 + Real.exp 1) + 1e-11 := by
      have h2 : (1:ℝ) / (1 + Real.exp 1) < Real.exp 1 / (1 + Real.exp 1) :=
        div_lt_div_of_pos_right he hpos
      linarith
    have hlog : Real.log (1 / (1 + Real.exp 1) + 1e-11)
        < Real.log (Real.exp 1 / (1 + Real.exp 1) + 1e-11) :=
      Real.log_lt_log (by positivity) hlt
    simp only [ne_eq, List.cons.injEq, and_true]
    intro hc
    linarith

/-- C5: optimizer name SGD builds an SGD optimizer carrying the configured
momentum, Adam builds an Adam optimizer, and any other name (such as
RMSProp) raises a lookup failure; through `initExperiment` that failure
aborts construction, so no constructed experiment exists on which a
training step could run. -/
theorem optimizer_selection (lr m lrf : ℚ) (name : String)
    (h1 : name ≠ ("SGD")) (h2 : name ≠ ("Adam")) :
    createOptimizer ("SGD") lr m = Except.ok (OptimizerSpec.sgd lr m)
    ∧ createOptimizer ("Adam") lr m = Except.ok (OptimizerSpec.adam lr)
    ∧ createOptimizer name lr m
        = Except.error ("Incorrect optimizer value")
    ∧ initExperiment
        { optimizer := name, learning_rate := lr, momentum := m,
          lr_scheduler := none, lr_scheduler_params := none,
          learning_rate_factor := lrf }
        = Except.error ("Incorrect optimizer value") := by
  refine ⟨rfl, ?_, ?_, ?_⟩
  · simp [createOptimizer]
  · simp [createOptimizer, h1, h2]
  · simp [initExperiment, createOptimizer, h1, h2]

/-- C5, witness: instantiated at the unsupported name RMSProp with
learning rate 1, momentum 2 and learning-rate factor 3. -/
theorem optimizer_selection_witness :
    createOptimizer ("RMSProp") 1 2
        = Except.error ("Incorrect optimizer value")
    ∧ createOptimizer ("SGD") 1 2 = Except.ok (OptimizerSpec.sgd 1 2)
    ∧ createOptimizer ("Adam") 1 2 = Except.ok (OptimizerSpec.adam 1)
    ∧ initExperiment
        { optimizer := ("RMSProp"), learning_rate := 1, momentum := 2,
          lr_scheduler := none, lr_scheduler_params := none,
          learning_rate_factor := 3 }
        = Except.error ("Incorrect optimizer value") := by
  have h := optimizer_selection 1 2 3 ("RMSProp") (by decide) (by decide)
  exact ⟨h.2.2.1, h.1, h.2.1, h.2.2.2⟩

/-- C6: scheduler name StepLR ignores any supplied scheduler parameters and
synthesizes step size 1 with gamma equal to the configured
learning-rate factor; any other scheduler name with absent
lr_scheduler_params raises a value error at construction. -/
theorem scheduler_selection (lrf : ℚ) (params : Option String) (n : String)
    (h : n ≠ ("StepLR")) :
    createLearningRateScheduler (some ("StepLR")) params lrf
        = Except.ok (some (SchedulerSpec.stepLR 1 lrf))
    ∧ createLearningRateScheduler (some n) none lrf
        = Except.error ("Missing lr_scheduler_params for " ++ n) := by
  constructor
  · rfl
  · simp [createLearningRateScheduler, h]

/-- C6, witness: instantiated with supplied-but-ignored parameters for
StepLR and with the non-defaulted name MultiStepLR and absent
parameters. -/
theorem scheduler_selection_witness :
    createLearningRateScheduler (some ("StepLR")) (some ("ignored")) 3
        = Except.ok (some (SchedulerSpec.stepLR 1 3))
    ∧ createLearningRateScheduler (some ("MultiStepLR")) none 3
        = Except.error ("Missing lr_scheduler_params for " ++ "MultiStepLR")
    := by
  have h := scheduler_selection 3 (some ("ignored")) ("MultiStepLR")
    (by decide)
  exact ⟨h.1, h.2⟩

/-- C7: the builder computes each convolutional layer's output spatial size
analytically as (width - 5) + 1 followed by integer halving for the 2x2
max pool, and for cnn_out_channels = [32] with cnn_input_shape =
(1, 28, 28) the resulting shape is (32, 12, 12): 28 to 24 to 12, giving a
statically known flattened size. -/
theorem cnn_output_shape_analytic :
    (∀ (shape : ℕ × ℕ × ℕ) (oc : ℕ),
        cnnShapeStep shape oc
          = (oc, ((shape.2.2 - 5) + 1) / 2, ((shape.2.2 - 5) + 1) / 2))
    ∧ cnnOutputShape [32] (1, 28, 28) = (32, 12, 12)
    ∧ (28 - 5) + 1 = 24 ∧ 24 / 2 = 12
    ∧ flattenedInputSize (cnnOutputShape [32] (1, 28, 28)) = 32 * 12 * 12
    := by
  refine ⟨fun shape oc => rfl, by decide, by decide, by decide, by decide⟩

/-- C8: runNoiseTests iterates over the fixed ascending noise magnitudes
0.0, 0.05, ..., 0.5 and returns one entry per magnitude — 11 in all — each
carrying that magnitude's test metrics. -/
theorem runNoiseTests_entries {M : Type} (test : ℚ → M) :
    runNoiseTests test = noiseValues.map (fun noise => (noise, test noise))
    ∧ (runNoiseTests test).map Prod.fst = noiseValues
    ∧ (runNoiseTests test).length = 11
    ∧ List.Chain' (fun a b : ℚ => a < b) noiseValues := by
  have h : runNoiseTests test
      = noiseValues.map (fun noise => (noise, test noise)) := by
    simp [runNoiseTests, foldl_append_map]
  refine ⟨h, ?_, ?_, ?_⟩
  · rw [h]; simp [noiseValues]
  · rw [h]; simp [noiseValues]
  · norm_num [noiseValues, List.chain'_cons]

/-- C9: the claim (and the mixin's own comment) says the profiler context
is enabled exactly when the process has coordinator rank zero, but
`setup_experiment` stores that flag in `profile_autograd` while
`train_epoch` reads `profile`: on rank 0 with no externally assigned
`profile` attribute the epoch fails with AttributeError, and on rank 1
with an externally assigned `profile = True` the profiler runs and logs
its table despite the nonzero rank. -/
theorem profile_autograd_rank_gate_broken :
    ProfileAutograd.train_epoch (ProfileAutograd.setup_experiment
        { rank := 0, profile_autograd := none, profile := none,
          epochs_trained := 0, profiler_tables_logged := 0 })
      = Except.error ("AttributeError: profile")
    ∧ ProfileAutograd.train_epoch (ProfileAutograd.setup_experiment
        { rank := 1, profile_autograd := none, profile := some true,
          epochs_trained := 0, profiler_tables_logged := 0 })
      = Except.ok
          { rank := 1, profile_autograd := some false, profile := some true,
            epochs_trained := 1, profiler_tables_logged := 1 } := by
  constructor <;> rfl

/-- C10, counterexample: the claim says the reduction parameter of
`module_specific_log_softmax_nll_loss` is unused.  It is forwarded to the
per-horizon NLL loss: on a two-entry batch the mean and sum reductions
give different per-module vectors. -/
theorem module_specific_reduction_parameter_used_counterexample :
    module_specific_log_softmax_nll_loss ([[tBatch2]], [[tgtZero211]]) ()
        Reduction.mean
      ≠ module_specific_log_softmax_nll_loss ([[tBatch2]], [[tgtZero211]])
          () Reduction.sum := by
  rw [eval_ms_tBatch2_sum, eval_ms_tBatch2_mean]
  have h : 0 < Real.log (1 + 1e-11) := Real.log_pos (by norm_num)
  intro hc
  simp only [List.cons.injEq, and_true] at hc
  nlinarith

/-- C10, amended: the accepted-but-unused reduction parameter belongs to
`multiple_log_softmax_nll_loss`, which invokes the module-specific
computation with the default mean whatever reduction it receives;
`module_specific_log_softmax_nll_loss` itself forwards its reduction
argument to the per-horizon NLL loss. -/
theorem multiple_log_softmax_reduction_parameter_unused
    (data_lists : List (List Tensor4) × List (List Target3))
    (r r' : Reduction) :
    multiple_log_softmax_nll_loss data_lists () r
      = multiple_log_softmax_nll_loss data_lists () r' := rfl
